import Mathlib

/-!
Shallow embedding of the FlowGrpc gRPC server manager of FoundationDB
(fdbrpc/FlowGrpc.h) and of its lifecycle state machine.

The header FlowGrpc.h gives the enum GrpcServer::State, the member fields
with their initializers, and a few inline member functions (onRunning,
onNextStart, hasStarted, numStarts, FlowGrpc::instance, GrpcServer::instance,
CONFIG_STARTUP_DELAY_BETWEEN_RESTART); those are embedded directly from the
header. The out-of-line member functions (run, stopServer, shutdown,
registerService, registerRoleServices, deregisterRoleServices, the debounced
restart coordinator) are declared in the header but their definitions are not
part of the available sources, so they are modelled from the design
specification, as flagged on each definition below.

The single-threaded cooperative scheduler of the design is embedded by making
every public operation an atomic step on the instance state; the passage of
time for the debounce settle timer is embedded as an explicit tick event, and
the outcome of a native bind attempt on the blocking-call bridge is an
explicit boolean parameter of the start and restart steps. Futures returned
by deregisterRoleServices are given fresh numeric identities so that their
resolution point can be observed.
-/

namespace FlowGrpcModel

/-- Server lifecycle states, from the enum GrpcServer::State in FlowGrpc.h
(lines 194 to 199): Running, Stopping, Stopped, Shutdown. -/
inductive State where
  | Running
  | Stopping
  | Stopped
  | Shutdown
deriving DecidableEq, Repr

/-- Worker UIDs, abstracted to natural numbers; the model never inspects them
beyond equality, matching the unordered map keyed by UID in FlowGrpc.h. -/
abbrev UID := Nat

/-- Opaque service handles (shared_ptr of grpc::Service); the core never
inspects them, so they are abstracted to natural numbers. -/
abbrev ServiceHandle := Nat

/-- ServiceList alias, FlowGrpc.h line 111. -/
abbrev ServiceList := List ServiceHandle

/-- Settle delay (in time units) before restarting the server after a change
to registered services: CONFIG_STARTUP_DELAY_BETWEEN_RESTART, FlowGrpc.h
line 167. -/
def CONFIG_STARTUP_DELAY_BETWEEN_RESTART : Nat := 2

/-- Error kinds surfaced on lifecycle futures (specification section 7):
a failed native bind, and any lifecycle operation after terminal shutdown. -/
inductive GrpcError where
  | BindFailure
  | AlreadyShutdown
deriving DecidableEq, Repr

/-- Observable result of one public operation: plain success, a failed
future, or a returned future handle identified by a fresh id (the latter is
produced by deregisterRoleServices). -/
inductive Output where
  | ok
  | err (e : GrpcError)
  | future (id : Nat)
deriving DecidableEq, Repr

/-- State of one GrpcServer instance. The fields address_, state_,
num_starts_, server_ and registered_services_ mirror the members of
FlowGrpc.h lines 176 to 206 (server_ abstracts the unique_ptr to the native
server to the fact of being non-null). The field debounce_ models the armed
settle timer of the restart coordinator (none when no restart is pending,
some t when the timer fires after t further ticks reach zero); next_future_,
pending_dereg_ and resolved_ model the identities, pending set and resolved
set of the futures returned by deregisterRoleServices. -/
structure GrpcServer where
  address_ : Nat
  state_ : State
  num_starts_ : Nat
  server_ : Bool
  registered_services_ : List (UID × ServiceList)
  debounce_ : Option Nat
  next_future_ : Nat
  pending_dereg_ : List Nat
  resolved_ : List Nat
deriving DecidableEq, Repr

/-- Construction of a GrpcServer instance: the member initializers of
FlowGrpc.h give state_ = Stopped (line 200), num_starts_ = 0 (line 206), a
null native server pointer (line 187) and an empty registry (line 184); no
settle timer is armed and no deregistration future exists yet. -/
def GrpcServer.construct (addr : Nat) : GrpcServer :=
  { address_ := addr
    state_ := State.Stopped
    num_starts_ := 0
    server_ := false
    registered_services_ := []
    debounce_ := none
    next_future_ := 0
    pending_dereg_ := []
    resolved_ := [] }

/-- getAddress, inline in FlowGrpc.h line 120. -/
def GrpcServer.getAddress (s : GrpcServer) : Nat := s.address_

/-- hasStarted, inline in FlowGrpc.h line 157: state_ == State::Running and
server_ != nullptr. -/
def GrpcServer.hasStarted (s : GrpcServer) : Bool :=
  decide (s.state_ = State.Running) && s.server_

/-- numStarts, inline in FlowGrpc.h line 160: returns num_starts_. -/
def GrpcServer.numStarts (s : GrpcServer) : Nat := s.num_starts_

/-- Shape of the future returned by onRunning: either an already-fulfilled
future (the Void() branch) or the onNextStart trigger future. -/
inductive RunningFuture where
  | immediate
  | nextStart
deriving DecidableEq, Repr

/-- onRunning, inline in FlowGrpc.h line 135: already fulfilled when state_
is Running, otherwise the future returned by onNextStart. -/
def GrpcServer.onRunning (s : GrpcServer) : RunningFuture :=
  if s.state_ = State.Running then RunningFuture.immediate
  else RunningFuture.nextStart

/-- Modelled from the spec: the definition of GrpcServer::run is not under
the available sources (only its declaration, FlowGrpc.h line 124). Per the
specification transition table: from Stopped a successful bind enters
Running and increments the start counter; a failed bind surfaces BindFailure
on the returned future and leaves the instance Stopped with its registry
unchanged; when already Running the call is idempotent (no rebind, counter
unchanged, the future of the original start is returned, modelled as ok);
after Shutdown every lifecycle operation fails with AlreadyShutdown. From
the transient Stopping state the call is modelled as a no-op success. -/
def GrpcServer.run (s : GrpcServer) (bindOk : Bool) : GrpcServer × Output :=
  match s.state_ with
  | State.Shutdown => (s, Output.err GrpcError.AlreadyShutdown)
  | State.Running => (s, Output.ok)
  | State.Stopping => (s, Output.ok)
  | State.Stopped =>
      if bindOk then
        ({ s with state_ := State.Running
                  num_starts_ := s.num_starts_ + 1
                  server_ := true }, Output.ok)
      else
        (s, Output.err GrpcError.BindFailure)

/-- Modelled from the spec: the definition of GrpcServer::stopServer is not
under the available sources (declaration FlowGrpc.h line 128). Stops the
native listener and enters Stopped; idempotent when already Stopped; fails
with AlreadyShutdown after terminal shutdown. -/
def GrpcServer.stopServer (s : GrpcServer) : GrpcServer × Output :=
  match s.state_ with
  | State.Shutdown => (s, Output.err GrpcError.AlreadyShutdown)
  | State.Stopped => (s, Output.ok)
  | _ => ({ s with state_ := State.Stopped, server_ := false }, Output.ok)

/-- Modelled from the spec: the definition of GrpcServer::shutdown is not
under the available sources (declaration FlowGrpc.h line 132). From any
non-terminal state it stops the listener if running, disarms any pending
restart and enters the terminal Shutdown state; a second shutdown, like any
lifecycle operation after shutdown, fails with AlreadyShutdown. -/
def GrpcServer.shutdown (s : GrpcServer) : GrpcServer × Output :=
  match s.state_ with
  | State.Shutdown => (s, Output.err GrpcError.AlreadyShutdown)
  | _ => ({ s with state_ := State.Shutdown
                   server_ := false
                   debounce_ := none }, Output.ok)

/-- Lookup of the service list registered under an owner, embedding a read
of the unordered map registered_services_ (FlowGrpc.h line 184); the
insertion-ordered association list keeps the per-owner lists observable. -/
def lookupOwner : List (UID × ServiceList) → UID → Option ServiceList
  | [], _ => none
  | (o, l) :: rest, owner =>
      if o = owner then some l else lookupOwner rest owner

/-- Append of new services to the bucket of an owner, creating the bucket
when absent; per the header comment (FlowGrpc.h line 83), if a UID is
already registered the new services are appended to the existing list. -/
def appendServices : List (UID × ServiceList) → UID → ServiceList →
    List (UID × ServiceList)
  | [], owner, hs => [(owner, hs)]
  | (o, l) :: rest, owner, hs =>
      if o = owner then (o, l ++ hs) :: rest
      else (o, l) :: appendServices rest owner hs

/-- Removal of the whole bucket of an owner; a no-op when the owner is
absent. -/
def removeOwner : List (UID × ServiceList) → UID → List (UID × ServiceList)
  | [], _ => []
  | (o, l) :: rest, owner =>
      if o = owner then removeOwner rest owner
      else (o, l) :: removeOwner rest owner

/-- Modelled from the spec: the definition of
GrpcServer::registerRoleServices is not under the available sources
(declaration FlowGrpc.h line 147). Appends the given services to the bucket
of the owner (creating it when absent) and re-arms the settle timer of the
restart coordinator; after terminal shutdown the operation has no effect. -/
def GrpcServer.registerRoleServices (s : GrpcServer) (owner : UID)
    (services : ServiceList) : GrpcServer :=
  match s.state_ with
  | State.Shutdown => s
  | _ => { s with
      registered_services_ := appendServices s.registered_services_ owner services
      debounce_ := some CONFIG_STARTUP_DELAY_BETWEEN_RESTART }

/-- Owner bucket used by the single-service registration entry point. -/
def DEFAULT_OWNER : UID := 0

/-- Modelled from the spec: the definition of GrpcServer::registerService is
not under the available sources (declaration FlowGrpc.h line 146). Appends
the handle under an implicit default owner bucket and schedules a debounce. -/
def GrpcServer.registerService (s : GrpcServer) (svc : ServiceHandle) :
    GrpcServer :=
  s.registerRoleServices DEFAULT_OWNER [svc]

/-- Modelled from the spec: the definition of
GrpcServer::deregisterRoleServices is not under the available sources
(declaration FlowGrpc.h line 151). Removes the whole bucket of the owner (a
no-op, not an error, when the owner is unknown), re-arms the settle timer,
and returns a fresh future that is fulfilled only once the resulting
restart has completed; after terminal shutdown the operation fails with
AlreadyShutdown. -/
def GrpcServer.deregisterRoleServices (s : GrpcServer) (owner : UID) :
    GrpcServer × Output :=
  match s.state_ with
  | State.Shutdown => (s, Output.err GrpcError.AlreadyShutdown)
  | _ => ({ s with
      registered_services_ := removeOwner s.registered_services_ owner
      debounce_ := some CONFIG_STARTUP_DELAY_BETWEEN_RESTART
      next_future_ := s.next_future_ + 1
      pending_dereg_ := s.pending_dereg_ ++ [s.next_future_] },
    Output.future s.next_future_)

/-- Modelled from the spec: the restart cycle triggered when the settle
timer elapses (the coordinator around on_services_changed_, FlowGrpc.h line
183, whose actor definition is not under the available sources). While the
server is Running a stop, rebuild and start cycle runs on a frozen registry
snapshot: on bind success the start counter increments and all futures of
deregistrations applied before the fire are resolved; on bind failure the
instance is left Stopped awaiting the next registry change or an explicit
run. When the server is not Running when the timer elapses, the timer is
simply disarmed. -/
def GrpcServer.fireRestart (s : GrpcServer) (bindOk : Bool) : GrpcServer :=
  match s.state_ with
  | State.Running =>
      if bindOk then
        { s with num_starts_ := s.num_starts_ + 1
                 server_ := true
                 debounce_ := none
                 resolved_ := s.resolved_ ++ s.pending_dereg_
                 pending_dereg_ := [] }
      else
        { s with state_ := State.Stopped
                 server_ := false
                 debounce_ := none }
  | _ => { s with debounce_ := none }

/-- Modelled from the spec: passage of one unit of time on the cooperative
scheduler. An armed settle timer counts down; when it has reached zero the
debounced restart cycle fires with the given native bind outcome; with no
timer armed nothing happens. A registry mutation arms the timer to the full
settle delay, so mutations arriving before the timer elapses reset it. -/
def GrpcServer.tick (s : GrpcServer) (bindOk : Bool) : GrpcServer :=
  match s.debounce_ with
  | none => s
  | some 0 => s.fireRestart bindOk
  | some (t + 1) => { s with debounce_ := some t }

/-- Iterated ticks with successful native bind outcomes. -/
def ticksN : GrpcServer → Nat → GrpcServer
  | s, 0 => s
  | s, n + 1 => ticksN (s.tick true) n

/-- Events of the single-threaded scheduler: the public operations of the
instance plus the passage of one unit of time. The boolean on run and tick
is the outcome of the native bind attempt performed on the blocking-call
bridge during that step. -/
inductive Event where
  | run (bindOk : Bool)
  | stopServer
  | shutdown
  | registerService (svc : ServiceHandle)
  | registerRoleServices (owner : UID) (services : ServiceList)
  | deregisterRoleServices (owner : UID)
  | tick (bindOk : Bool)
deriving DecidableEq, Repr

/-- One scheduler step: dispatches an event to the corresponding operation
and reports its observable output. -/
def step (s : GrpcServer) (e : Event) : GrpcServer × Output :=
  match e with
  | Event.run b => s.run b
  | Event.stopServer => s.stopServer
  | Event.shutdown => s.shutdown
  | Event.registerService svc => (s.registerService svc, Output.ok)
  | Event.registerRoleServices o hs => (s.registerRoleServices o hs, Output.ok)
  | Event.deregisterRoleServices o => s.deregisterRoleServices o
  | Event.tick b => (s.tick b, Output.ok)

/-- The state reached by one scheduler step. -/
def stepS (s : GrpcServer) (e : Event) : GrpcServer := (step s e).1

/-- The state reached by a sequence of scheduler steps. -/
def execList : GrpcServer → List Event → GrpcServer
  | s, [] => s
  | s, e :: es => execList (stepS s e) es

/-- A step performs a completed successful (re)start of the listener: either
an explicit run from Stopped whose bind succeeds, or an elapsed settle timer
firing a restart cycle while Running whose bind succeeds. -/
def successfulStart (s : GrpcServer) (e : Event) : Prop :=
  (e = Event.run true ∧ s.state_ = State.Stopped) ∨
  (e = Event.tick true ∧ s.state_ = State.Running ∧ s.debounce_ = some 0)

/-- The on_next_start_ trigger (FlowGrpc.h line 182) fires during a step
exactly when that step completes a successful start, observable as the start
counter growing. -/
def startFired (s : GrpcServer) (e : Event) : Bool :=
  decide (s.num_starts_ < (stepS s e).num_starts_)

/-- The FlowGrpc singleton payload: the credential provider slot and the
shared pointer to the local GrpcServer (null in client mode), FlowGrpc.h
lines 69 to 72. -/
structure FlowGrpc where
  credentials_ : Bool
  server_ : Option GrpcServer
deriving DecidableEq, Repr

/-- The process-wide network-global table, restricted to its enGrpcState
slot, through which FlowGrpc::instance reads the singleton; the slot holds
null until FlowGrpc::init has installed the instance. -/
structure NetworkGlobals where
  enGrpcState : Option FlowGrpc
deriving DecidableEq, Repr

/-- The process-wide network-global table before FlowGrpc::init has run:
the enGrpcState slot is null. -/
def uninitializedGlobals : NetworkGlobals := { enGrpcState := none }

/-- FlowGrpc::instance, inline in FlowGrpc.h line 51: a plain cast of the
contents of the enGrpcState network-global slot, with no initialization
guard of any kind; it returns whatever the slot holds, null included. -/
def FlowGrpc.getInstance (g : NetworkGlobals) : Option FlowGrpc :=
  g.enGrpcState

/-- Modelled from the spec: the definition of FlowGrpc::init is not under
the available sources (declaration FlowGrpc.h line 58). It installs the
singleton into the enGrpcState network-global slot, configures credentials,
and creates a GrpcServer only when a server address is supplied (absence of
an address means client mode with no local listener). -/
def FlowGrpc.init (tlsConfigured : Bool) (server_addr : Option Nat) :
    NetworkGlobals :=
  { enGrpcState := some
      { credentials_ := tlsConfigured
        server_ := server_addr.map GrpcServer.construct } }

/-- The registry-mutating calls of the public interface, used to state the
debounce-coalescing property over bursts of such calls. -/
inductive RegistryCall where
  | registerService (svc : ServiceHandle)
  | registerRoleServices (owner : UID) (services : ServiceList)
  | deregisterRoleServices (owner : UID)
deriving DecidableEq, Repr

/-- Application of one registry-mutating call to the instance state. -/
def applyCall (s : GrpcServer) : RegistryCall → GrpcServer
  | RegistryCall.registerService svc => s.registerService svc
  | RegistryCall.registerRoleServices o hs => s.registerRoleServices o hs
  | RegistryCall.deregisterRoleServices o => (s.deregisterRoleServices o).1

/-- A burst of registry-mutating calls: each call is followed by its gap,
the number of time units that pass before the next entry. -/
def applyBurst : GrpcServer → List (RegistryCall × Nat) → GrpcServer
  | s, [] => s
  | s, (c, gap) :: rest => applyBurst (ticksN (applyCall s c) gap) rest

instance (s : GrpcServer) (e : Event) : Decidable (successfulStart s e) := by
  unfold successfulStart
  infer_instance

/-- A concretely started server instance, used by the closed witness
theorems: a fresh instance on which run has completed a successful bind. -/
def runningServer : GrpcServer := ((GrpcServer.construct 0).run true).1

/-- A concretely shut-down server instance, used by the closed witness
theorems. -/
def sdServer : GrpcServer := ((GrpcServer.construct 0).shutdown).1

/-- A concrete event sequence used by the closed witness theorems. -/
def evsEx : List Event :=
  [Event.run true, Event.registerRoleServices 1 [10],
   Event.tick true, Event.tick true, Event.tick true]

/-- A concrete burst of registry-mutating calls, each gap below the settle
delay, used by the closed witness theorems. -/
def burstEx : List (RegistryCall × Nat) :=
  [(RegistryCall.registerRoleServices 1 [10], 1),
   (RegistryCall.deregisterRoleServices 1, 0)]

/-! Helper lemmas shared by the claim theorems. -/

theorem stepS_shutdown_absorbing (s : GrpcServer) (e : Event)
    (h : s.state_ = State.Shutdown) : (stepS s e).state_ = State.Shutdown := by
  cases e with
  | run b => simp [stepS, step, GrpcServer.run, h]
  | stopServer => simp [stepS, step, GrpcServer.stopServer, h]
  | shutdown => simp [stepS, step, GrpcServer.shutdown, h]
  | registerService svc =>
      simp [stepS, step, GrpcServer.registerService,
        GrpcServer.registerRoleServices, h]
  | registerRoleServices o hs =>
      simp [stepS, step, GrpcServer.registerRoleServices, h]
  | deregisterRoleServices o =>
      simp [stepS, step, GrpcServer.deregisterRoleServices, h]
  | tick b =>
      cases hd : s.debounce_ with
      | none => simpa [stepS, step, GrpcServer.tick, hd] using h
      | some t =>
          cases t with
          | zero =>
              simp [stepS, step, GrpcServer.tick, GrpcServer.fireRestart, hd, h]
          | succ t => simpa [stepS, step, GrpcServer.tick, hd] using h

theorem execList_shutdown (s : GrpcServer) (h : s.state_ = State.Shutdown) :
    ∀ evs : List Event, (execList s evs).state_ = State.Shutdown := by
  intro evs
  induction evs generalizing s with
  | nil => simpa [execList] using h
  | cons e es ih =>
      simp only [execList]
      exact ih (stepS s e) (stepS_shutdown_absorbing s e h)

theorem run_shutdown_err (s : GrpcServer) (h : s.state_ = State.Shutdown)
    (b : Bool) : (s.run b).2 = Output.err GrpcError.AlreadyShutdown := by
  simp [GrpcServer.run, h]

/-- C1: Shutdown is terminal. Once the state of an instance is Shutdown,
every subsequent sequence of scheduler events leaves the state Shutdown (in
particular Running is never re-entered), and a subsequent run always fails
with AlreadyShutdown. -/
theorem C1_shutdown_terminal (s : GrpcServer) (h : s.state_ = State.Shutdown)
    (evs : List Event) :
    (execList s evs).state_ = State.Shutdown ∧
    ∀ b : Bool,
      ((execList s evs).run b).2 = Output.err GrpcError.AlreadyShutdown := by
  have hs := execList_shutdown s h evs
  exact ⟨hs, fun b => run_shutdown_err _ hs b⟩

theorem C1_shutdown_terminal_witness :
    sdServer.state_ = State.Shutdown ∧
    (execList sdServer evsEx).state_ = State.Shutdown ∧
    ((execList sdServer evsEx).run true).2 =
      Output.err GrpcError.AlreadyShutdown :=
  ⟨by decide, (C1_shutdown_terminal sdServer (by decide) evsEx).1,
   (C1_shutdown_terminal sdServer (by decide) evsEx).2 true⟩

/-- C4: run is idempotent while Running. When the server is already Running,
a further run call (whatever the would-be bind outcome) returns the state of
the instance completely unchanged (no rebind of the native listener, start
counter unchanged) together with a successful outcome, the same successful
outcome the original start produced. -/
theorem C4_run_idempotent (s : GrpcServer) (b : Bool)
    (h : s.state_ = State.Running) : s.run b = (s, Output.ok) := by
  simp [GrpcServer.run, h]

theorem C4_run_idempotent_witness :
    runningServer.state_ = State.Running ∧
    runningServer.run false = (runningServer, Output.ok) :=
  ⟨by decide, C4_run_idempotent runningServer false (by decide)⟩

/-- C8: when run fails to bind the port, the failure is surfaced as
BindFailure on the returned future, the instance is left in the Stopped
state completely unchanged (registry included), and a subsequent run call
can retry and succeed, entering Running and incrementing the start
counter. -/
theorem C8_run_bind_failure (s : GrpcServer) (h : s.state_ = State.Stopped) :
    (s.run false).2 = Output.err GrpcError.BindFailure ∧
    (s.run false).1 = s ∧
    ((s.run false).1.run true).1.state_ = State.Running ∧
    ((s.run false).1.run true).1.numStarts = s.numStarts + 1 := by
  simp [GrpcServer.run, GrpcServer.numStarts, h]

theorem C8_run_bind_failure_witness :
    (GrpcServer.construct 0).state_ = State.Stopped ∧
    ((GrpcServer.construct 0).run false).2 =
      Output.err GrpcError.BindFailure ∧
    ((GrpcServer.construct 0).run false).1 = GrpcServer.construct 0 ∧
    (((GrpcServer.construct 0).run false).1.run true).1.state_ =
      State.Running :=
  ⟨by decide, (C8_run_bind_failure (GrpcServer.construct 0) (by decide)).1,
   (C8_run_bind_failure (GrpcServer.construct 0) (by decide)).2.1,
   (C8_run_bind_failure (GrpcServer.construct 0) (by decide)).2.2.1⟩

/-- C10: hasStarted holds exactly when the state is Running and the native
server object is non-null; hence it is false in every non-Running state
(Stopped, Stopping, Shutdown), and false immediately after construction,
when the start counter is also zero. -/
theorem C10_hasStarted_characterization (s : GrpcServer) (addr : Nat) :
    (s.hasStarted = true ↔ s.state_ = State.Running ∧ s.server_ = true) ∧
    (s.state_ ≠ State.Running → s.hasStarted = false) ∧
    (GrpcServer.construct addr).hasStarted = false ∧
    (GrpcServer.construct addr).numStarts = 0 := by
  refine ⟨?_, ?_, ?_, ?_⟩
  · simp [GrpcServer.hasStarted]
  · intro hne
    simp [GrpcServer.hasStarted, hne]
  · simp [GrpcServer.hasStarted, GrpcServer.construct]
  · simp [GrpcServer.numStarts, GrpcServer.construct]

theorem C10_hasStarted_witness :
    (GrpcServer.construct 7).hasStarted = false ∧
    (GrpcServer.construct 7).numStarts = 0 :=
  ⟨(C10_hasStarted_characterization (GrpcServer.construct 7) 7).2.2.1,
   (C10_hasStarted_characterization (GrpcServer.construct 7) 7).2.2.2⟩

/-- C9 counterexample: before FlowGrpc::init has run, the enGrpcState
network-global slot is null and FlowGrpc::instance silently returns that
null; the accessor contains no guard against use before initialization. -/
theorem C9_instance_silently_null :
    FlowGrpc.getInstance uninitializedGlobals = none := rfl

/-- C9 amended: the accessor performs no initialization guard at all: it
returns exactly the contents of the process-wide slot, hence silently
returns null when called before init, and returns the installed singleton
after init, holding a server instance exactly when a server address was
supplied. Callers, not the accessor, must ensure init has run. -/
theorem C9_instance_unguarded (g : NetworkGlobals) (tls : Bool) (addr : Nat) :
    FlowGrpc.getInstance g = g.enGrpcState ∧
    FlowGrpc.getInstance (FlowGrpc.init tls (some addr)) =
      some { credentials_ := tls,
             server_ := some (GrpcServer.construct addr) } ∧
    FlowGrpc.getInstance (FlowGrpc.init tls none) =
      some { credentials_ := tls, server_ := none } := by
  refine ⟨rfl, ?_, ?_⟩ <;> simp [FlowGrpc.getInstance, FlowGrpc.init]

theorem lookupOwner_appendServices_self (l : List (UID × ServiceList))
    (owner : UID) (hs : ServiceList) :
    lookupOwner (appendServices l owner hs) owner =
      some ((lookupOwner l owner).getD [] ++ hs) := by
  induction l with
  | nil => simp [appendServices, lookupOwner]
  | cons p rest ih =>
      obtain ⟨o, svc⟩ := p
      by_cases ho : o = owner
      · subst ho
        simp [appendServices, lookupOwner]
      · simp [appendServices, lookupOwner, ho, ih]

theorem lookupOwner_appendServices_other (l : List (UID × ServiceList))
    (owner o2 : UID) (hs : ServiceList) (hne : o2 ≠ owner) :
    lookupOwner (appendServices l owner hs) o2 = lookupOwner l o2 := by
  induction l with
  | nil => simp [appendServices, lookupOwner, Ne.symm hne]
  | cons p rest ih =>
      obtain ⟨o, svc⟩ := p
      by_cases ho : o = owner
      · subst ho
        simp [appendServices, lookupOwner, Ne.symm hne]
      · simp [appendServices, lookupOwner, ho, ih]

/-- C7: registering services again for an owner appends to the existing
bucket of that owner rather than replacing it, with the given handles added
at the end in order, and leaves the bucket of every other owner untouched. -/
theorem C7_registerRoleServices_appends (s : GrpcServer) (owner : UID)
    (services : ServiceList) (h : s.state_ ≠ State.Shutdown) :
    lookupOwner (s.registerRoleServices owner services).registered_services_
        owner =
      some ((lookupOwner s.registered_services_ owner).getD [] ++ services) ∧
    ∀ o2 : UID, o2 ≠ owner →
      lookupOwner (s.registerRoleServices owner services).registered_services_
          o2 =
        lookupOwner s.registered_services_ o2 := by
  have hreg : (s.registerRoleServices owner services).registered_services_ =
      appendServices s.registered_services_ owner services := by
    cases hst : s.state_ with
    | Shutdown => exact absurd hst h
    | Running => simp [GrpcServer.registerRoleServices, hst]
    | Stopping => simp [GrpcServer.registerRoleServices, hst]
    | Stopped => simp [GrpcServer.registerRoleServices, hst]
  rw [hreg]
  exact ⟨lookupOwner_appendServices_self _ _ _,
    fun o2 hne => lookupOwner_appendServices_other _ _ _ _ hne⟩

theorem C7_registerRoleServices_appends_witness :
    (GrpcServer.construct 0).state_ ≠ State.Shutdown ∧
    lookupOwner ((GrpcServer.construct 0).registerRoleServices 1
        [10, 11]).registered_services_ 1 =
      some ((lookupOwner (GrpcServer.construct 0).registered_services_ 1).getD
        [] ++ [10, 11]) ∧
    lookupOwner (((GrpcServer.construct 0).registerRoleServices 1
        [10, 11]).registerRoleServices 1 [12]).registered_services_ 1 =
      some ((lookupOwner ((GrpcServer.construct 0).registerRoleServices 1
        [10, 11]).registered_services_ 1).getD [] ++ [12]) :=
  ⟨by decide,
   (C7_registerRoleServices_appends (GrpcServer.construct 0) 1 [10, 11]
     (by decide)).1,
   (C7_registerRoleServices_appends
     ((GrpcServer.construct 0).registerRoleServices 1 [10, 11]) 1 [12]
     (by decide)).1⟩

theorem numStarts_step_eq (s : GrpcServer) (e : Event) :
    (stepS s e).num_starts_ =
      if successfulStart s e then s.num_starts_ + 1 else s.num_starts_ := by
  cases e with
  | run b =>
      cases hst : s.state_ <;> cases b <;>
        simp [stepS, step, GrpcServer.run, successfulStart, hst]
  | stopServer =>
      cases hst : s.state_ <;>
        simp [stepS, step, GrpcServer.stopServer, successfulStart, hst]
  | shutdown =>
      cases hst : s.state_ <;>
        simp [stepS, step, GrpcServer.shutdown, successfulStart, hst]
  | registerService svc =>
      cases hst : s.state_ <;>
        simp [stepS, step, GrpcServer.registerService,
          GrpcServer.registerRoleServices, successfulStart, hst]
  | registerRoleServices o hs =>
      cases hst : s.state_ <;>
        simp [stepS, step, GrpcServer.registerRoleServices,
          successfulStart, hst]
  | deregisterRoleServices o =>
      cases hst : s.state_ <;>
        simp [stepS, step, GrpcServer.deregisterRoleServices,
          successfulStart, hst]
  | tick b =>
      cases hd : s.debounce_ with
      | none => simp [stepS, step, GrpcServer.tick, successfulStart, hd]
      | some t =>
          cases t with
          | zero =>
              cases hst : s.state_ <;> cases b <;>
                simp [stepS, step, GrpcServer.tick, GrpcServer.fireRestart,
                  successfulStart, hst, hd]
          | succ t =>
              simp [stepS, step, GrpcServer.tick, successfulStart, hd]

theorem numStarts_step_le (s : GrpcServer) (e : Event) :
    s.num_starts_ ≤ (stepS s e).num_starts_ := by
  have h := numStarts_step_eq s e
  split at h <;> omega

theorem numStarts_execList_le (s : GrpcServer) (evs : List Event) :
    s.num_starts_ ≤ (execList s evs).num_starts_ := by
  induction evs generalizing s with
  | nil => simp [execList]
  | cons e es ih =>
      simp only [execList]
      exact le_trans (numStarts_step_le s e) (ih (stepS s e))

theorem run_false_numStarts (s : GrpcServer) :
    ((s.run false).1).num_starts_ = s.num_starts_ := by
  cases hst : s.state_ <;> simp [GrpcServer.run, hst]

theorem tick_false_numStarts (s : GrpcServer) :
    (s.tick false).num_starts_ = s.num_starts_ := by
  cases hd : s.debounce_ with
  | none => simp [GrpcServer.tick, hd]
  | some t =>
      cases t with
      | zero =>
          cases hst : s.state_ <;>
            simp [GrpcServer.tick, GrpcServer.fireRestart, hd, hst]
      | succ t => simp [GrpcServer.tick, hd]

/-- C3: the start counter never decreases over any sequence of scheduler
events; one step increments it by exactly one precisely when that step is a
completed successful (re)start (an explicit run from Stopped whose bind
succeeds, or an elapsed settle timer firing a restart while Running whose
bind succeeds); and a failed bind attempt, whether from an explicit run or
from a debounced restart, leaves the counter unchanged. -/
theorem C3_numStarts_monotone (s : GrpcServer) (evs : List Event)
    (e : Event) :
    s.numStarts ≤ (execList s evs).numStarts ∧
    ((stepS s e).numStarts = s.numStarts + 1 ↔ successfulStart s e) ∧
    (s.run false).1.numStarts = s.numStarts ∧
    (s.tick false).numStarts = s.numStarts := by
  refine ⟨numStarts_execList_le s evs, ?_, run_false_numStarts s,
    tick_false_numStarts s⟩
  have h := numStarts_step_eq s e
  simp only [GrpcServer.numStarts]
  split at h
  · simp [h]
    assumption
  · rw [h]
    constructor
    · intro hc
      omega
    · intro hc
      exact absurd hc (by assumption)

theorem C3_numStarts_monotone_witness :
    (GrpcServer.construct 0).numStarts ≤
      (execList (GrpcServer.construct 0) evsEx).numStarts ∧
    ((stepS (GrpcServer.construct 0) (Event.run true)).numStarts =
        (GrpcServer.construct 0).numStarts + 1 ↔
      successfulStart (GrpcServer.construct 0) (Event.run true)) ∧
    ((GrpcServer.construct 0).run false).1.numStarts =
      (GrpcServer.construct 0).numStarts ∧
    ((GrpcServer.construct 0).tick false).numStarts =
      (GrpcServer.construct 0).numStarts :=
  C3_numStarts_monotone (GrpcServer.construct 0) evsEx (Event.run true)

theorem startFired_true_iff (s : GrpcServer) (e : Event) :
    startFired s e = true ↔ successfulStart s e := by
  unfold startFired
  rw [numStarts_step_eq s e]
  by_cases hc : successfulStart s e
  · simp [hc]
  · simp [hc]

theorem state_running_iff_start (s : GrpcServer) (e : Event)
    (h : s.state_ ≠ State.Running) :
    successfulStart s e ↔ (stepS s e).state_ = State.Running := by
  cases e with
  | run b =>
      cases hst : s.state_ <;> cases b <;>
        simp [stepS, step, GrpcServer.run, successfulStart, hst] <;>
        exact absurd hst h
  | stopServer =>
      cases hst : s.state_ <;>
        simp [stepS, step, GrpcServer.stopServer, successfulStart, hst]
  | shutdown =>
      cases hst : s.state_ <;>
        simp [stepS, step, GrpcServer.shutdown, successfulStart, hst]
  | registerService svc =>
      cases hst : s.state_ <;>
        first
        | exact absurd hst h
        | simp [stepS, step, GrpcServer.registerService,
            GrpcServer.registerRoleServices, successfulStart, hst]
  | registerRoleServices o hs =>
      cases hst : s.state_ <;>
        first
        | exact absurd hst h
        | simp [stepS, step, GrpcServer.registerRoleServices,
            successfulStart, hst]
  | deregisterRoleServices o =>
      cases hst : s.state_ <;>
        first
        | exact absurd hst h
        | simp [stepS, step, GrpcServer.deregisterRoleServices,
            successfulStart, hst]
  | tick b =>
      cases hd : s.debounce_ with
      | none =>
          simp [stepS, step, GrpcServer.tick, successfulStart, hd]
          exact fun hr => absurd hr h
      | some t =>
          cases t with
          | zero =>
              cases hst : s.state_ <;> cases b <;>
                simp [stepS, step, GrpcServer.tick, GrpcServer.fireRestart,
                  successfulStart, hst, hd]
          | succ t =>
              simp [stepS, step, GrpcServer.tick, successfulStart, hd]
              exact fun hr => absurd hr h

/-- C6: onRunning returns an already-fulfilled future when the state is
already Running; in every other state it returns the onNextStart trigger
future, and that trigger fires during a step exactly when the step takes the
instance into the Running state (the next start). -/
theorem C6_onRunning_resolution (s : GrpcServer) :
    (s.state_ = State.Running → s.onRunning = RunningFuture.immediate) ∧
    (s.state_ ≠ State.Running →
      s.onRunning = RunningFuture.nextStart ∧
      ∀ e : Event,
        startFired s e = true ↔ (stepS s e).state_ = State.Running) := by
  constructor
  · intro h
    simp [GrpcServer.onRunning, h]
  · intro h
    refine ⟨by simp [GrpcServer.onRunning, h], fun e => ?_⟩
    rw [startFired_true_iff]
    exact state_running_iff_start s e h

theorem C6_onRunning_resolution_witness :
    ((GrpcServer.construct 0).state_ ≠ State.Running ∧
      (GrpcServer.construct 0).onRunning = RunningFuture.nextStart) ∧
    (runningServer.state_ = State.Running ∧
      runningServer.onRunning = RunningFuture.immediate) ∧
    (startFired (GrpcServer.construct 0) (Event.run true) = true ↔
      (stepS (GrpcServer.construct 0) (Event.run true)).state_ =
        State.Running) :=
  ⟨⟨by decide,
    ((C6_onRunning_resolution (GrpcServer.construct 0)).2 (by decide)).1⟩,
   ⟨by decide, (C6_onRunning_resolution runningServer).1 (by decide)⟩,
   ((C6_onRunning_resolution (GrpcServer.construct 0)).2 (by decide)).2
     (Event.run true)⟩

theorem resolved_changes_only_at_restart (s : GrpcServer) (e : Event)
    (hne : (stepS s e).resolved_ ≠ s.resolved_) :
    (stepS s e).num_starts_ = s.num_starts_ + 1 := by
  cases e with
  | run b =>
      cases hst : s.state_ <;> cases b <;>
        simp [stepS, step, GrpcServer.run, hst] at hne
  | stopServer =>
      cases hst : s.state_ <;>
        simp [stepS, step, GrpcServer.stopServer, hst] at hne
  | shutdown =>
      cases hst : s.state_ <;>
        simp [stepS, step, GrpcServer.shutdown, hst] at hne
  | registerService svc =>
      cases hst : s.state_ <;>
        simp [stepS, step, GrpcServer.registerService,
          GrpcServer.registerRoleServices, hst] at hne
  | registerRoleServices o hs =>
      cases hst : s.state_ <;>
        simp [stepS, step, GrpcServer.registerRoleServices, hst] at hne
  | deregisterRoleServices o =>
      cases hst : s.state_ <;>
        simp [stepS, step, GrpcServer.deregisterRoleServices, hst] at hne
  | tick b =>
      cases hd : s.debounce_ with
      | none => simp [stepS, step, GrpcServer.tick, hd] at hne
      | some t =>
          cases t with
          | zero =>
              cases hst : s.state_ <;> cases b <;>
                simp [stepS, step, GrpcServer.tick, GrpcServer.fireRestart,
                  hst, hd] at hne ⊢
          | succ t => simp [stepS, step, GrpcServer.tick, hd] at hne

/-- C2: the future returned by deregisterRoleServices is fulfilled only once
the resulting restart has completed, not merely once the registry mutation
has been applied. Immediately after the call the returned future is still
pending, it stays pending through the whole settle window, it is fulfilled
exactly when the debounced restart cycle completes (at which point the start
counter has grown by one), and in general the set of fulfilled
deregistration futures only ever grows at a step that completes a restart. -/
theorem C2_deregister_future_after_restart (s : GrpcServer) (owner : UID)
    (h : s.state_ = State.Running)
    (hfresh : s.next_future_ ∉ s.resolved_) :
    (s.deregisterRoleServices owner).2 = Output.future s.next_future_ ∧
    s.next_future_ ∉ ((s.deregisterRoleServices owner).1).resolved_ ∧
    s.next_future_ ∉ (ticksN (s.deregisterRoleServices owner).1
        CONFIG_STARTUP_DELAY_BETWEEN_RESTART).resolved_ ∧
    s.next_future_ ∈ (ticksN (s.deregisterRoleServices owner).1
        (CONFIG_STARTUP_DELAY_BETWEEN_RESTART + 1)).resolved_ ∧
    (ticksN (s.deregisterRoleServices owner).1
        (CONFIG_STARTUP_DELAY_BETWEEN_RESTART + 1)).num_starts_ =
      s.num_starts_ + 1 ∧
    ∀ (s2 : GrpcServer) (e : Event),
      (stepS s2 e).resolved_ ≠ s2.resolved_ →
        (stepS s2 e).num_starts_ = s2.num_starts_ + 1 := by
  obtain ⟨a, st, n, sv, reg, db, nf, pd, rs⟩ := s
  simp only at h hfresh
  subst h
  refine ⟨?_, ?_, ?_, ?_, ?_,
    fun s2 e hne => resolved_changes_only_at_restart s2 e hne⟩ <;>
    simp [GrpcServer.deregisterRoleServices,
      CONFIG_STARTUP_DELAY_BETWEEN_RESTART, ticksN, GrpcServer.tick,
      GrpcServer.fireRestart] <;>
    simp_all

theorem C2_deregister_future_witness :
    runningServer.state_ = State.Running ∧
    runningServer.next_future_ ∉ runningServer.resolved_ ∧
    (runningServer.deregisterRoleServices 5).2 =
      Output.future runningServer.next_future_ ∧
    runningServer.next_future_ ∉
      ((runningServer.deregisterRoleServices 5).1).resolved_ ∧
    runningServer.next_future_ ∈ (ticksN
      (runningServer.deregisterRoleServices 5).1
      (CONFIG_STARTUP_DELAY_BETWEEN_RESTART + 1)).resolved_ :=
  ⟨by decide, by decide,
   (C2_deregister_future_after_restart runningServer 5 (by decide)
     (by decide)).1,
   (C2_deregister_future_after_restart runningServer 5 (by decide)
     (by decide)).2.1,
   (C2_deregister_future_after_restart runningServer 5 (by decide)
     (by decide)).2.2.2.1⟩

theorem ticksN_add (s : GrpcServer) (m n : Nat) :
    ticksN s (m + n) = ticksN (ticksN s m) n := by
  induction m generalizing s with
  | zero => simp [ticksN]
  | succ m ih =>
      have hmn : m + 1 + n = (m + n) + 1 := by omega
      rw [hmn]
      simp only [ticksN]
      exact ih (s.tick true)

theorem ticksN_none (k : Nat) :
    ∀ r : GrpcServer, r.debounce_ = none → ticksN r k = r := by
  induction k with
  | zero =>
      intro r _
      rfl
  | succ k ih =>
      intro r hr
      have ht : r.tick true = r := by
        simp [GrpcServer.tick, hr]
      simp only [ticksN, ht]
      exact ih r hr

theorem ticksN_noFire (k : Nat) :
    ∀ (s : GrpcServer) (d : Nat), s.debounce_ = some d → k ≤ d →
    (ticksN s k).state_ = s.state_ ∧
    (ticksN s k).num_starts_ = s.num_starts_ ∧
    (ticksN s k).debounce_ = some (d - k) := by
  induction k with
  | zero =>
      intro s d hd _
      simpa [ticksN] using hd
  | succ k ih =>
      intro s d hd hk
      cases d with
      | zero => omega
      | succ d =>
          have ht : s.tick true = { s with debounce_ := some d } := by
            simp [GrpcServer.tick, hd]
          have hrec := ih (s.tick true) d (by rw [ht]) (by omega)
          rw [ht] at hrec
          simp only [ticksN]
          rw [ht]
          simpa [Nat.succ_sub_succ] using hrec

theorem ticksN_fire (s : GrpcServer) (d : Nat)
    (h : s.state_ = State.Running) (hd : s.debounce_ = some d) :
    (ticksN s (d + 1)).state_ = State.Running ∧
    (ticksN s (d + 1)).num_starts_ = s.num_starts_ + 1 ∧
    (ticksN s (d + 1)).debounce_ = none := by
  rw [ticksN_add s d 1]
  obtain ⟨h1, h2, h3⟩ := ticksN_noFire d s d hd (le_refl d)
  have h3z : (ticksN s d).debounce_ = some 0 := by
    rw [h3]
    simp
  have h1r : (ticksN s d).state_ = State.Running := by
    rw [h1, h]
  simp only [ticksN]
  simp [GrpcServer.tick, h3z, GrpcServer.fireRestart, h1r, h2]

theorem applyCall_running (s : GrpcServer) (c : RegistryCall)
    (h : s.state_ = State.Running) :
    (applyCall s c).state_ = State.Running ∧
    (applyCall s c).num_starts_ = s.num_starts_ ∧
    (applyCall s c).debounce_ = some CONFIG_STARTUP_DELAY_BETWEEN_RESTART := by
  cases c <;>
    simp [applyCall, GrpcServer.registerService,
      GrpcServer.registerRoleServices, GrpcServer.deregisterRoleServices, h]

theorem applyBurst_inv (burst : List (RegistryCall × Nat)) :
    ∀ s : GrpcServer, s.state_ = State.Running → burst ≠ [] →
    (∀ p ∈ burst, p.2 ≤ CONFIG_STARTUP_DELAY_BETWEEN_RESTART) →
    (applyBurst s burst).state_ = State.Running ∧
    (applyBurst s burst).num_starts_ = s.num_starts_ ∧
    ∃ d, (applyBurst s burst).debounce_ = some d ∧
      d ≤ CONFIG_STARTUP_DELAY_BETWEEN_RESTART := by
  induction burst with
  | nil =>
      intro s _ hne _
      exact absurd rfl hne
  | cons p rest ih =>
      intro s hs _ hg
      obtain ⟨c, gap⟩ := p
      have hgap : gap ≤ CONFIG_STARTUP_DELAY_BETWEEN_RESTART := by
        simpa using hg (c, gap) (List.mem_cons_self _ _)
      obtain ⟨hc1, hc2, hc3⟩ := applyCall_running s c hs
      obtain ⟨ht1, ht2, ht3⟩ :=
        ticksN_noFire gap (applyCall s c)
          CONFIG_STARTUP_DELAY_BETWEEN_RESTART hc3 hgap
      have hs1run : (ticksN (applyCall s c) gap).state_ = State.Running := by
        rw [ht1, hc1]
      have hs1num : (ticksN (applyCall s c) gap).num_starts_ =
          s.num_starts_ := by
        rw [ht2, hc2]
      cases rest with
      | nil =>
          refine ⟨?_, ?_, CONFIG_STARTUP_DELAY_BETWEEN_RESTART - gap, ?_, ?_⟩
          · simpa [applyBurst] using hs1run
          · simpa [applyBurst] using hs1num
          · simpa [applyBurst] using ht3
          · omega
      | cons q qs =>
          have hrec := ih (ticksN (applyCall s c) gap) hs1run (by simp)
            (fun p hp => hg p (List.mem_cons_of_mem _ hp))
          have heq : applyBurst s ((c, gap) :: q :: qs) =
              applyBurst (ticksN (applyCall s c) gap) (q :: qs) := rfl
          rw [heq]
          exact ⟨hrec.1, by rw [hrec.2.1, hs1num], hrec.2.2⟩

/-- C5: debounce coalescing. Each registry-mutating call re-arms the settle
timer to the full delay, so a nonempty burst of such calls, each issued
before the timer armed by the previous one has elapsed, causes no restart
during the burst, and once the burst goes quiescent for the settle window
exactly one restart runs: the start counter grows by exactly one over the
whole burst and the server is Running again. -/
theorem C5_debounce_coalescing (s : GrpcServer)
    (burst : List (RegistryCall × Nat)) (h : s.state_ = State.Running)
    (hne : burst ≠ [])
    (hg : ∀ p ∈ burst, p.2 ≤ CONFIG_STARTUP_DELAY_BETWEEN_RESTART) :
    (applyBurst s burst).numStarts = s.numStarts ∧
    (ticksN (applyBurst s burst)
        (CONFIG_STARTUP_DELAY_BETWEEN_RESTART + 1)).numStarts =
      s.numStarts + 1 ∧
    (ticksN (applyBurst s burst)
        (CONFIG_STARTUP_DELAY_BETWEEN_RESTART + 1)).state_ =
      State.Running := by
  obtain ⟨h1, h2, d, hd, hdle⟩ := applyBurst_inv burst s h hne hg
  have hsum : CONFIG_STARTUP_DELAY_BETWEEN_RESTART + 1 =
      (d + 1) + (CONFIG_STARTUP_DELAY_BETWEEN_RESTART - d) := by omega
  obtain ⟨f1, f2, f3⟩ := ticksN_fire (applyBurst s burst) d h1 hd
  have hrest := ticksN_none (CONFIG_STARTUP_DELAY_BETWEEN_RESTART - d)
    (ticksN (applyBurst s burst) (d + 1)) f3
  refine ⟨?_, ?_, ?_⟩
  · simpa [GrpcServer.numStarts] using h2
  · simp only [GrpcServer.numStarts]
    rw [hsum, ticksN_add, hrest, f2, h2]
  · rw [hsum, ticksN_add, hrest, f1]

theorem C5_debounce_coalescing_witness :
    runningServer.state_ = State.Running ∧ burstEx ≠ [] ∧
    (∀ p ∈ burstEx, p.2 ≤ CONFIG_STARTUP_DELAY_BETWEEN_RESTART) ∧
    (applyBurst runningServer burstEx).numStarts =
      runningServer.numStarts ∧
    (ticksN (applyBurst runningServer burstEx)
        (CONFIG_STARTUP_DELAY_BETWEEN_RESTART + 1)).numStarts =
      runningServer.numStarts + 1 :=
  ⟨by decide, by decide, by decide,
   (C5_debounce_coalescing runningServer burstEx (by decide) (by decide)
     (by decide)).1,
   (C5_debounce_coalescing runningServer burstEx (by decide) (by decide)
     (by decide)).2.1⟩

end FlowGrpcModel
